import Mathlib

/-!
Shallow embedding of `src/backend/server.js` of the attendance-tracker
service: an Express application over a MySQL pool with three CRUD routes
(`GET /api/attendance`, `POST /api/attendance`, `DELETE /api/attendance/:id`),
two static routes (`GET /health`, `GET /api`), a CORS origin predicate, and a
startup supervisor with a bounded retry loop.

JavaScript values that matter to the routes are modelled explicitly:
a possibly-missing string field is `Option String` (`none` = `undefined`),
JS truthiness of such a field is `jsTruthy`, `isNaN(string)` is `jsIsNaN`
(string-to-number coercion succeeding or not), and `parseInt(string)` is
`jsParseInt`.  JSON response bodies are a small `Json` AST; an HTTP response
is a status code paired with its body.  The MySQL table is a list of rows
plus the AUTO_INCREMENT counter and an insertion clock for `created_at`.
-/

namespace AttendanceTracker

/-- A JSON value, as produced by `res.json(...)` in the handlers. -/
inductive Json where
  | null
  | bool (b : Bool)
  | num (n : Int)
  | str (s : String)
  | arr (elems : List Json)
  | obj (fields : List (String × Json))
deriving Repr

/-- An HTTP response: status code and JSON body. -/
abbrev Response := Nat × Json

/-- One row of the `Attendance` table (schema from `initDatabase`):
`id INT AUTO_INCREMENT PRIMARY KEY`, `employeeName`, `employeeID`,
`date DATE`, `status`, `created_at TIMESTAMP DEFAULT CURRENT_TIMESTAMP`.
The `date` is kept as its `YYYY-MM-DD` string (fixed-width, so string
order is date order) and `created_at` as a logical insertion clock. -/
structure Row where
  id : Nat
  employeeName : String
  employeeID : String
  date : String
  status : String
  created_at : Nat
deriving DecidableEq, Repr

/-- The state of the `Attendance` table: its rows, the next AUTO_INCREMENT
value, and the clock stamped into `created_at` on insertion. -/
structure Store where
  rows : List Row
  nextId : Nat
  clock : Nat
deriving DecidableEq, Repr

/-- `req.body` of `POST /api/attendance` as the handler destructures it:
each of the four fields is present (`some`) or `undefined` (`none`). -/
structure PostBody where
  employeeName : Option String
  employeeID : Option String
  date : Option String
  status : Option String
deriving DecidableEq, Repr

/-- JS truthiness of a string-or-undefined value: `undefined` and `""` are
falsy, every other string is truthy (`!employeeName` etc. in the source). -/
def jsTruthy : Option String → Bool
  | none => false
  | some s => !(s == "")

/-- The whitespace characters `String.prototype.trim` strips: the JS
WhiteSpace set (space, tab, vertical tab, form feed, no-break space, BOM
and the Unicode space separators) and the line terminators. -/
def jsWhitespaceChars : List Char :=
  [' ', '\t', '\n', '\r', '\x0b', '\x0c', ' ', '﻿',
   ' ', ' ', ' ', ' ', ' ', ' ', ' ',
   ' ', ' ', ' ', ' ', ' ', ' ', ' ',
   ' ', ' ', '　']

/-- Whether a character is JS whitespace. -/
def isJSWhitespace (c : Char) : Bool := jsWhitespaceChars.contains c

/-- JS `s.trim()`: leading and trailing whitespace removed. -/
def jsTrim (s : String) : String :=
  String.mk (((s.data.dropWhile isJSWhitespace).reverse.dropWhile isJSWhitespace).reverse)

/-- The `{success:false, error: msg}` body used by the 400/404 branches. -/
def errBody (msg : String) : Json :=
  Json.obj [("success", Json.bool false), ("error", Json.str msg)]

/-- `'All fields are required: employeeName, employeeID, date, status'`. -/
def allFieldsMsg : String := "All fields are required: employeeName, employeeID, date, status"

/-- `'Status must be "Present" or "Absent"'`. -/
def statusMsg : String := "Status must be \"Present\" or \"Absent\""

/-- `'Date must be in YYYY-MM-DD format'`. -/
def dateMsg : String := "Date must be in YYYY-MM-DD format"

/-- The test of `/^\d{4}-\d{2}-\d{2}$/` on a string: exactly four digits,
a dash, two digits, a dash, two digits (`\d` is `[0-9]`). -/
def dateRegexTest (s : String) : Bool :=
  match s.toList with
  | [y1, y2, y3, y4, '-', m1, m2, '-', d1, d2] =>
      y1.isDigit && y2.isDigit && y3.isDigit && y4.isDigit &&
      m1.isDigit && m2.isDigit && d1.isDigit && d2.isDigit
  | _ => false

/-- The body of the 201 response of `POST /api/attendance`: message, the
generated id, and `data` echoing the four input fields as received. -/
def createdBody (id : Nat) (n i d s : String) : Json :=
  Json.obj [("success", Json.bool true),
            ("message", Json.str "Attendance recorded successfully"),
            ("id", Json.num (id : Int)),
            ("data", Json.obj [("employeeName", Json.str n),
                               ("employeeID", Json.str i),
                               ("date", Json.str d),
                               ("status", Json.str s)])]

/-- The `POST /api/attendance` handler with the pool initialized and the
INSERT succeeding (the `catch` branch needs a store error, which the pure
store never raises).  Mirrors the source line by line: presence check on
all four fields, `['Present','Absent'].includes(status)`, the date regex,
then the INSERT of the trimmed name/ID with the untrimmed echo in `data`. -/
def postAttendance (st : Store) (body : PostBody) : Response × Store :=
  if !jsTruthy body.employeeName || !jsTruthy body.employeeID ||
     !jsTruthy body.date || !jsTruthy body.status then
    ((400, errBody allFieldsMsg), st)
  else
    let n := body.employeeName.getD ""
    let i := body.employeeID.getD ""
    let d := body.date.getD ""
    let s := body.status.getD ""
    if !(s == "Present" || s == "Absent") then
      ((400, errBody statusMsg), st)
    else if !dateRegexTest d then
      ((400, errBody dateMsg), st)
    else
      let row : Row := { id := st.nextId, employeeName := jsTrim n, employeeID := jsTrim i,
                         date := d, status := s, created_at := st.clock }
      ((201, createdBody st.nextId n i d s),
       { rows := st.rows ++ [row], nextId := st.nextId + 1, clock := st.clock + 1 })

/-! ### JavaScript number coercion, for `isNaN(id)` and `parseInt(id)` -/

/-- Decimal digits, at least one (`DecimalDigits` of the JS grammar). -/
def decDigits (l : List Char) : Bool := !l.isEmpty && l.all Char.isDigit

/-- Hex digits, at least one. -/
def hexDigits (l : List Char) : Bool :=
  !l.isEmpty && l.all fun c => c.isDigit || ('a' ≤ c && c ≤ 'f') || ('A' ≤ c && c ≤ 'F')

/-- Binary digits, at least one. -/
def binDigits (l : List Char) : Bool := !l.isEmpty && l.all fun c => c == '0' || c == '1'

/-- Octal digits, at least one. -/
def octDigits (l : List Char) : Bool := !l.isEmpty && l.all fun c => '0' ≤ c && c ≤ '7'

/-- `SignedInteger`: decimal digits with an optional leading sign. -/
def signedDigits (l : List Char) : Bool :=
  match l with
  | '+' :: r => decDigits r
  | '-' :: r => decDigits r
  | r => decDigits r

/-- Split a char list at the first `e`/`E`, returning the mantissa and the
exponent part when present. -/
def splitAtExp : List Char → List Char × Option (List Char)
  | [] => ([], none)
  | c :: r =>
    if c == 'e' || c == 'E' then ([], some r)
    else
      let (m, e) := splitAtExp r
      (c :: m, e)

/-- Split a char list at the first `.`, returning the parts before and
(when a dot occurs) after it. -/
def splitAtDot : List Char → List Char × Option (List Char)
  | [] => ([], none)
  | c :: r =>
    if c == '.' then ([], some r)
    else
      let (m, e) := splitAtDot r
      (c :: m, e)

/-- `StrUnsignedDecimalLiteral`: `Infinity`, or decimal digits with an
optional fraction, or a leading-dot fraction, each with an optional
exponent part. -/
def unsignedDecLiteral (l : List Char) : Bool :=
  if l == "Infinity".toList then true
  else
    let (mant, ex) := splitAtExp l
    (match ex with
     | none => true
     | some e => signedDigits e) &&
    (match splitAtDot mant with
     | (intPart, none) => decDigits intPart
     | (intPart, some frac) =>
       if intPart.isEmpty then decDigits frac
       else decDigits intPart && (frac.isEmpty || decDigits frac))

/-- `StrNumericLiteral`: an optionally signed decimal literal, or an
unsigned hex/binary/octal literal. -/
def strNumericLiteral (l : List Char) : Bool :=
  match l with
  | '0' :: 'x' :: r => hexDigits r
  | '0' :: 'X' :: r => hexDigits r
  | '0' :: 'b' :: r => binDigits r
  | '0' :: 'B' :: r => binDigits r
  | '0' :: 'o' :: r => octDigits r
  | '0' :: 'O' :: r => octDigits r
  | '+' :: r => unsignedDecLiteral r
  | '-' :: r => unsignedDecLiteral r
  | r => unsignedDecLiteral r

/-- JS `isNaN(s)` for a string `s`: `Number(s)` is NaN exactly when the
whitespace-trimmed string is neither empty (which coerces to 0) nor a
numeric literal. -/
def jsIsNaN (s : String) : Bool :=
  let w := (jsTrim s).toList
  !(w.isEmpty || strNumericLiteral w)

/-- The numeric value of a digit list in the given radix. -/
def digitsToNat (radix : Nat) : List Char → Nat → Nat
  | [], acc => acc
  | c :: r, acc =>
    let v := if c.isDigit then c.toNat - '0'.toNat
             else if 'a' ≤ c && c ≤ 'f' then c.toNat - 'a'.toNat + 10
             else c.toNat - 'A'.toNat + 10
    digitsToNat radix r (acc * radix + v)

/-- Whether `c` is a digit of the given radix (10 or 16 here). -/
def isRadixDigit (radix : Nat) (c : Char) : Bool :=
  if radix == 16 then c.isDigit || ('a' ≤ c && c ≤ 'f') || ('A' ≤ c && c ≤ 'F')
  else c.isDigit

/-- JS `parseInt(s)` (radix unspecified): trim, optional sign, optional
`0x`/`0X` prefix switching to radix 16, then the longest prefix of radix
digits; `none` (NaN) when that prefix is empty. -/
def jsParseInt (s : String) : Option Int :=
  let w := (jsTrim s).toList
  let (sign, rest) : Int × List Char :=
    match w with
    | '-' :: r => (-1, r)
    | '+' :: r => (1, r)
    | r => (1, r)
  let (radix, rest2) : Nat × List Char :=
    match rest with
    | '0' :: 'x' :: r => (16, r)
    | '0' :: 'X' :: r => (16, r)
    | r => (10, r)
  let digits := rest2.takeWhile (isRadixDigit radix)
  if digits.isEmpty then none
  else some (sign * (digitsToNat radix digits 0 : Int))

/-! ### The DELETE and GET routes -/

/-- `{success:false, error:'Failed to delete record', details}`: the catch
branch of the DELETE handler; reached in the pure model only when
`parseInt(id)` is NaN, which the driver rejects as a statement parameter. -/
def deleteErrBody : Json :=
  Json.obj [("success", Json.bool false),
            ("error", Json.str "Failed to delete record"),
            ("details", Json.str "NaN parameter")]

/-- The `DELETE /api/attendance/:id` handler with the pool initialized:
400 when `!id || isNaN(id)`, otherwise `DELETE FROM Attendance WHERE id = ?`
with `parseInt(id)`; 404 when no row was affected, else 200. -/
def deleteAttendance (st : Store) (id : String) : Response × Store :=
  if id == "" || jsIsNaN id then
    ((400, errBody "Valid ID is required"), st)
  else
    match jsParseInt id with
    | none => ((500, deleteErrBody), st)
    | some k =>
      let remaining := st.rows.filter fun r => !((r.id : Int) == k)
      if remaining.length == st.rows.length then
        ((404, errBody "Record not found"), st)
      else
        ((200, Json.obj [("success", Json.bool true),
                         ("message", Json.str "Record deleted successfully")]),
         { st with rows := remaining })

/-- The ORDER BY relation of the listing query: `a` sorts no later than `b`
under `ORDER BY date DESC, created_at DESC` exactly when `b`'s key
`(date, created_at)` is at most `a`'s, lexicographically. -/
def listedBefore (a b : Row) : Prop :=
  b.date < a.date ∨ (b.date = a.date ∧ b.created_at ≤ a.created_at)

instance listedBefore.decRel : DecidableRel listedBefore := fun a b =>
  inferInstanceAs (Decidable (b.date < a.date ∨ (b.date = a.date ∧ b.created_at ≤ a.created_at)))

instance listedBefore.total : IsTotal Row listedBefore where
  total a b := by
    rcases lt_trichotomy a.date b.date with h | h | h
    · exact Or.inr (Or.inl h)
    · rcases Nat.le_total b.created_at a.created_at with hc | hc
      · exact Or.inl (Or.inr ⟨h.symm, hc⟩)
      · exact Or.inr (Or.inr ⟨h, hc⟩)
    · exact Or.inl (Or.inl h)

instance listedBefore.trans : IsTrans Row listedBefore where
  trans a b c hab hbc := by
    rcases hab with hab | ⟨hab, hab'⟩
    · rcases hbc with hbc | ⟨hbc, _⟩
      · exact Or.inl (hbc.trans hab)
      · exact Or.inl (hbc ▸ hab)
    · rcases hbc with hbc | ⟨hbc, hbc'⟩
      · exact Or.inl (hab ▸ hbc)
      · exact Or.inr ⟨hbc.trans hab, hbc'.trans hab'⟩

/-- The result set of `SELECT * FROM Attendance ORDER BY date DESC,
created_at DESC`: the rows sorted stably under `listedBefore`. -/
def listRows (rows : List Row) : List Row :=
  List.insertionSort listedBefore rows

/-- One row as the JSON object MySQL rows serialize to. -/
def rowToJson (r : Row) : Json :=
  Json.obj [("id", Json.num (r.id : Int)),
            ("employeeName", Json.str r.employeeName),
            ("employeeID", Json.str r.employeeID),
            ("date", Json.str r.date),
            ("status", Json.str r.status),
            ("created_at", Json.num (r.created_at : Int))]

/-- The `GET /api/attendance` handler with the pool initialized and the
query succeeding: 200 `{success:true, data: rows, count: rows.length}`. -/
def getAttendance (st : Store) : Response :=
  let rows := listRows st.rows
  (200, Json.obj [("success", Json.bool true),
                  ("data", Json.arr (rows.map rowToJson)),
                  ("count", Json.num (rows.length : Int))])

/-! ### Static routes, the pool guard, and the other handlers' envelopes -/

/-- The `GET /health` body: `{status:'OK', message, timestamp}`. -/
def healthBody (timestamp : String) : Json :=
  Json.obj [("status", Json.str "OK"),
            ("message", Json.str "Server is running"),
            ("timestamp", Json.str timestamp)]

/-- The `GET /health` handler. -/
def healthRoute (timestamp : String) : Response := (200, healthBody timestamp)

/-- The `GET /api` body: the static capability descriptor. -/
def apiInfoBody : Json :=
  Json.obj [("message", Json.str "Employee Attendance Tracker API"),
            ("version", Json.str "1.0.0"),
            ("endpoints", Json.obj
              [("GET /api/attendance", Json.str "Get all attendance records"),
               ("POST /api/attendance", Json.str "Create new attendance record"),
               ("DELETE /api/attendance/:id", Json.str "Delete attendance record")])]

/-- The `GET /api` handler. -/
def apiInfoRoute : Response := (200, apiInfoBody)

/-- The body each data route returns when the pool was never initialized:
`res.status(500).json({ error: 'Database not connected' })`. -/
def poolUninitBody : Json :=
  Json.obj [("error", Json.str "Database not connected")]

/-- `GET /api/attendance` including the `if (!pool)` guard. -/
def getAttendanceRoute (poolReady : Bool) (st : Store) : Response :=
  if !poolReady then (500, poolUninitBody) else getAttendance st

/-- `POST /api/attendance` including the `if (!pool)` guard. -/
def postAttendanceRoute (poolReady : Bool) (st : Store) (body : PostBody) :
    Response × Store :=
  if !poolReady then ((500, poolUninitBody), st) else postAttendance st body

/-- `DELETE /api/attendance/:id` including the `if (!pool)` guard. -/
def deleteAttendanceRoute (poolReady : Bool) (st : Store) (id : String) :
    Response × Store :=
  if !poolReady then ((500, poolUninitBody), st) else deleteAttendance st id

/-- The 404 handler for unmatched routes. -/
def notFoundRoute (originalUrl : String) : Response :=
  (404, errBody ("Route " ++ originalUrl ++ " not found"))

/-- The global error handler. -/
def globalErrorRoute (message : String) : Response :=
  (500, Json.obj [("success", Json.bool false),
                  ("error", Json.str "Internal server error"),
                  ("message", Json.str message)])

/-- Whether a JSON value is an object with a boolean field of this name. -/
def hasBoolField (j : Json) (name : String) : Bool :=
  match j with
  | Json.obj fields =>
      fields.any fun f =>
        f.1 == name && (match f.2 with
                        | Json.bool _ => true
                        | _ => false)
  | _ => false

/-- The date format as the spec words it, independent of the code's regex
test: the lexical pattern of four digits, a dash, two digits, a dash, two
digits. -/
def specDatePattern (s : String) : Prop :=
  ∃ y1 y2 y3 y4 m1 m2 d1 d2 : Char,
    s.toList = [y1, y2, y3, y4, '-', m1, m2, '-', d1, d2] ∧
    y1.isDigit ∧ y2.isDigit ∧ y3.isDigit ∧ y4.isDigit ∧
    m1.isDigit ∧ m2.isDigit ∧ d1.isDigit ∧ d2.isDigit

/-! ### CORS origin predicate -/

/-- The three literal origins of `corsOptions`. -/
def fixedOrigins : List String :=
  ["http://localhost:3000",
   "https://attendance-tracker-frontend.vercel.app",
   "https://attendance-tracker.vercel.app"]

/-- The allow-list the origin callback builds: the three fixed origins plus
`process.env.FRONTEND_URL`, with `.filter(Boolean)` dropping the entry when
it is `undefined` or the empty string (both JS-falsy). -/
def corsAllowedOrigins (frontendUrl : Option String) : List String :=
  ((fixedOrigins.map some) ++ [frontendUrl]).filterMap fun x =>
    if jsTruthy x then x else none

/-- The origin callback of `corsOptions` as a pure predicate: `true` when
`!origin` (no Origin header, or an empty one), else membership of the
origin in the allow-list. -/
def corsOriginAllowed (frontendUrl : Option String) (origin : Option String) : Bool :=
  if !jsTruthy origin then true
  else (corsAllowedOrigins frontendUrl).contains (origin.getD "")

/-- The CORS decision as the spec words it: allowed iff there is no Origin
header, or the Origin is string-equal to a member of the three fixed
origins plus the FRONTEND_URL value when set.  Kept separate from
`corsOriginAllowed` (the code's predicate) so the two can be compared. -/
def corsSpecAllowed (frontendUrl : Option String) (origin : Option String) : Bool :=
  match origin with
  | none => true
  | some o =>
      (fixedOrigins ++ (match frontendUrl with
                        | some u => [u]
                        | none => [])).contains o

/-! ### Startup supervisor -/

/-- An observable event of `startServer`: a bootstrap attempt with its
outcome, a sleep of so many milliseconds, binding the HTTP listener, or
terminating the process with an exit code. -/
inductive StartEvent where
  | attempt (ok : Bool)
  | sleep (ms : Nat)
  | listen
  | exitProcess (code : Nat)
deriving DecidableEq, Repr

/-- The retry loop of `startServer`, as the trace of events it emits.
`outcome i` is the result of the `i`-th `initDatabase()` call; `fuel` is
`maxRetries - retries`, so the `while (retries < maxRetries)` guard is
`fuel > 0`.  On success: listen and stop.  On failure: if retries have
not reached the cap, sleep 5000 ms and loop; otherwise exit with code 1. -/
def startLoop (outcome : Nat → Bool) (i : Nat) : Nat → List StartEvent
  | 0 => []
  | fuel + 1 =>
    if outcome i then
      [StartEvent.attempt true, StartEvent.listen]
    else if fuel == 0 then
      [StartEvent.attempt false, StartEvent.exitProcess 1]
    else
      StartEvent.attempt false :: StartEvent.sleep 5000 :: startLoop outcome (i + 1) fuel

/-- `startServer()`: the retry loop with `maxRetries = 3`, `retries = 0`. -/
def startServer (outcome : Nat → Bool) : List StartEvent :=
  startLoop outcome 0 3

/-- Whether an event is a bootstrap attempt. -/
def isAttempt : StartEvent → Bool
  | StartEvent.attempt _ => true
  | _ => false

/-- Whether an event binds the listener. -/
def isListen : StartEvent → Bool
  | StartEvent.listen => true
  | _ => false

/-! ## Theorems -/

/-- The code's regex test agrees with the spec's lexical pattern. -/
theorem dateRegexTest_iff (s : String) : dateRegexTest s = true ↔ specDatePattern s := by
  constructor
  · intro h
    unfold dateRegexTest at h
    split at h
    · next y1 y2 y3 y4 m1 m2 d1 d2 heq =>
        simp only [Bool.and_eq_true] at h
        exact ⟨y1, y2, y3, y4, m1, m2, d1, d2, heq,
          h.1.1.1.1.1.1.1, h.1.1.1.1.1.1.2, h.1.1.1.1.1.2, h.1.1.1.1.2,
          h.1.1.1.2, h.1.1.2, h.1.2, h.2⟩
    · exact absurd h (by simp)
  · rintro ⟨y1, y2, y3, y4, m1, m2, d1, d2, hs, h1, h2, h3, h4, h5, h6, h7, h8⟩
    unfold dateRegexTest
    rw [hs]
    simp [h1, h2, h3, h4, h5, h6, h7, h8]

/-- A string passing the regex test is non-empty (it has ten characters). -/
theorem dateRegexTest_ne_empty {s : String} (h : dateRegexTest s = true) : s ≠ "" := by
  intro he
  subst he
  simp [dateRegexTest] at h

/-- Truthiness of a present field is non-emptiness of its string. -/
theorem jsTruthy_some {s : String} : jsTruthy (some s) = true ↔ s ≠ "" := by
  simp [jsTruthy]

/-- C2: for a POST body carrying all four fields (the other three
non-empty), a `status` other than exactly `"Present"` or `"Absent"` —
lowercase `"present"` included — yields a 400 error envelope and leaves
the store untouched, while a `status` equal to one of the two passes the
check: the outcome is then the date-format 400 or a 201, never the
status 400. -/
theorem post_status_validation (st : Store) (n i d s : String)
    (hn : n ≠ "") (hi : i ≠ "") (hd : d ≠ "") :
    (s ≠ "Present" → s ≠ "Absent" →
      (postAttendance st ⟨some n, some i, some d, some s⟩).1.1 = 400 ∧
      (∃ m, (postAttendance st ⟨some n, some i, some d, some s⟩).1.2 = errBody m) ∧
      (postAttendance st ⟨some n, some i, some d, some s⟩).2 = st) ∧
    ((s = "Present" ∨ s = "Absent") →
      (postAttendance st ⟨some n, some i, some d, some s⟩).1 = (400, errBody dateMsg) ∨
      (postAttendance st ⟨some n, some i, some d, some s⟩).1.1 = 201) := by
  constructor
  · intro hp ha
    by_cases hse : s = ""
    · subst hse
      simp [postAttendance, jsTruthy, hn, hi, hd]
    · simp [postAttendance, jsTruthy, hn, hi, hd, hse, hp, ha]
  · intro hs
    have hse : s ≠ "" := by rcases hs with h | h <;> simp [h]
    by_cases hdr : dateRegexTest d = true
    · right
      rcases hs with h | h <;> subst h <;>
        simp [postAttendance, jsTruthy, hn, hi, hd, hdr]
    · left
      rcases hs with h | h <;> subst h <;>
        simp [postAttendance, jsTruthy, hn, hi, hd, hdr]

/-- C2 witness: lowercase `"present"` is rejected with a 400 and no row is
inserted; exact `"Present"` passes the status check. -/
theorem post_status_validation_witness :
    ((postAttendance ⟨[], 1, 0⟩ ⟨some "Alice", some "E1", some "2024-03-01", some "present"⟩).1.1 = 400 ∧
     (∃ m, (postAttendance ⟨[], 1, 0⟩ ⟨some "Alice", some "E1", some "2024-03-01", some "present"⟩).1.2 = errBody m) ∧
     (postAttendance ⟨[], 1, 0⟩ ⟨some "Alice", some "E1", some "2024-03-01", some "present"⟩).2 = ⟨[], 1, 0⟩) ∧
    ((postAttendance ⟨[], 1, 0⟩ ⟨some "Alice", some "E1", some "2024-03-01", some "Present"⟩).1 = (400, errBody dateMsg) ∨
     (postAttendance ⟨[], 1, 0⟩ ⟨some "Alice", some "E1", some "2024-03-01", some "Present"⟩).1.1 = 201) :=
  ⟨(post_status_validation ⟨[], 1, 0⟩ "Alice" "E1" "2024-03-01" "present"
      (by decide) (by decide) (by decide)).1 (by decide) (by decide),
   (post_status_validation ⟨[], 1, 0⟩ "Alice" "E1" "2024-03-01" "Present"
      (by decide) (by decide) (by decide)).2 (Or.inl rfl)⟩

/-- C3: once presence and status checks pass, the `date` is accepted (201)
iff it matches the lexical four-digits, dash, two-digits, dash, two-digits
pattern; otherwise the handler answers the date-format 400 with the store
untouched.  The slash format `"01/02/2024"` fails the pattern and the
calendar-invalid `"2024-99-99"` matches it. -/
theorem post_date_validation (st : Store) (n i d s : String)
    (hn : n ≠ "") (hi : i ≠ "") (hd : d ≠ "") (hs : s = "Present" ∨ s = "Absent") :
    ((postAttendance st ⟨some n, some i, some d, some s⟩).1.1 = 201 ↔ specDatePattern d) ∧
    (¬ specDatePattern d →
      postAttendance st ⟨some n, some i, some d, some s⟩ = ((400, errBody dateMsg), st)) ∧
    specDatePattern "2024-99-99" ∧ ¬ specDatePattern "01/02/2024" := by
  have hse : s ≠ "" := by rcases hs with h | h <;> simp [h]
  have keyF : dateRegexTest d = false →
      postAttendance st ⟨some n, some i, some d, some s⟩ = ((400, errBody dateMsg), st) := by
    intro hb
    rcases hs with h | h <;> subst h <;>
      simp [postAttendance, jsTruthy, hn, hi, hd, hb]
  have keyT : dateRegexTest d = true →
      (postAttendance st ⟨some n, some i, some d, some s⟩).1.1 = 201 := by
    intro hb
    rcases hs with h | h <;> subst h <;>
      simp [postAttendance, jsTruthy, hn, hi, hd, hb]
  refine ⟨?_, ?_, ?_, ?_⟩
  · constructor
    · intro h
      cases hbv : dateRegexTest d with
      | false => rw [keyF hbv] at h; simp at h
      | true => exact (dateRegexTest_iff d).mp hbv
    · intro h
      exact keyT ((dateRegexTest_iff d).mpr h)
  · intro h
    have hb : dateRegexTest d = false := by
      cases hbv : dateRegexTest d with
      | false => rfl
      | true => exact absurd ((dateRegexTest_iff d).mp hbv) h
    exact keyF hb
  · exact (dateRegexTest_iff "2024-99-99").mp (by decide)
  · intro h
    exact absurd ((dateRegexTest_iff "01/02/2024").mpr h) (by decide)

/-- C3 witness: with valid name, ID and status, the handler applied to the
date `"2024-03-01"` answers 201 iff the pattern holds (and it does), and
the two concrete pattern facts are instantiated. -/
theorem post_date_validation_witness :
    ((postAttendance ⟨[], 1, 0⟩ ⟨some "Alice", some "E1", some "2024-03-01", some "Present"⟩).1.1 = 201 ↔
      specDatePattern "2024-03-01") ∧
    (¬ specDatePattern "2024-03-01" →
      postAttendance ⟨[], 1, 0⟩ ⟨some "Alice", some "E1", some "2024-03-01", some "Present"⟩ =
        ((400, errBody dateMsg), ⟨[], 1, 0⟩)) ∧
    specDatePattern "2024-99-99" ∧ ¬ specDatePattern "01/02/2024" :=
  post_date_validation ⟨[], 1, 0⟩ "Alice" "E1" "2024-03-01" "Present"
    (by decide) (by decide) (by decide) (Or.inl rfl)

/-- C4: a POST passing every validation inserts one row whose
`employeeName` and `employeeID` are the trimmed inputs (with the insert's
AUTO_INCREMENT id and the insertion clock), and answers 201 with the
generated id and a `data` object echoing the four fields untrimmed. -/
theorem post_success_shape (st : Store) (n i d s : String)
    (hn : n ≠ "") (hi : i ≠ "") (hs : s = "Present" ∨ s = "Absent")
    (hd : dateRegexTest d = true) :
    postAttendance st ⟨some n, some i, some d, some s⟩ =
      ((201, createdBody st.nextId n i d s),
       { rows := st.rows ++ [{ id := st.nextId, employeeName := jsTrim n,
                               employeeID := jsTrim i, date := d, status := s,
                               created_at := st.clock }],
         nextId := st.nextId + 1, clock := st.clock + 1 }) := by
  have hde : d ≠ "" := dateRegexTest_ne_empty hd
  rcases hs with h | h <;> subst h <;>
    simp [postAttendance, jsTruthy, hn, hi, hde, hd]

/-- C4 witness: the spec's own example — `employeeName` `"Alice Smith "`
and `employeeID` `" E1 "` are stored trimmed while the 201 body echoes
them as received. -/
theorem post_success_shape_witness :
    postAttendance ⟨[], 1, 0⟩
        ⟨some "Alice Smith ", some " E1 ", some "2024-03-01", some "Present"⟩ =
      ((201, createdBody 1 "Alice Smith " " E1 " "2024-03-01" "Present"),
       ⟨[⟨1, "Alice Smith", "E1", "2024-03-01", "Present", 0⟩], 2, 1⟩) := by
  rw [post_success_shape ⟨[], 1, 0⟩ "Alice Smith " " E1 " "2024-03-01" "Present"
    (by decide) (by decide) (Or.inl rfl) (by decide)]
  rfl

/-- C5 counterexample: a whitespace-only `employeeName` (a single space)
is truthy, so the request is accepted — and the stored row's
`employeeName` is the empty string after trimming. -/
theorem post_whitespace_stored_empty :
    (postAttendance ⟨[], 1, 0⟩ ⟨some " ", some "E1", some "2024-03-01", some "Present"⟩).1.1 = 201 ∧
    (postAttendance ⟨[], 1, 0⟩ ⟨some " ", some "E1", some "2024-03-01", some "Present"⟩).2.rows =
      [{ id := 1, employeeName := "", employeeID := "E1", date := "2024-03-01",
         status := "Present", created_at := 0 }] :=
  ⟨rfl, rfl⟩

/-- C5 amended: every accepted POST carries non-empty (pre-trim)
`employeeName` and `employeeID` strings, and stores their trims — which
are empty exactly when the input was whitespace-only, so the stored
values themselves need not be non-empty. -/
theorem post_accepted_fields (st : Store) (body : PostBody)
    (h : (postAttendance st body).1.1 = 201) :
    ∃ n i d s, body = ⟨some n, some i, some d, some s⟩ ∧ n ≠ "" ∧ i ≠ "" ∧
      (postAttendance st body).2.rows =
        st.rows ++ [{ id := st.nextId, employeeName := jsTrim n, employeeID := jsTrim i,
                      date := d, status := s, created_at := st.clock }] := by
  rcases body with ⟨en, ei, ed, es⟩
  simp only [postAttendance] at h ⊢
  split at h
  · simp at h
  · next hc =>
    split at h
    · simp at h
    · next hc2 =>
      split at h
      · simp at h
      · next hc3 =>
        cases en with
        | none => simp [jsTruthy] at hc
        | some n =>
          cases ei with
          | none => simp [jsTruthy] at hc
          | some i =>
            cases ed with
            | none => simp [jsTruthy] at hc
            | some d =>
              cases es with
              | none => simp [jsTruthy] at hc
              | some s =>
                have hc' := hc
                simp only [jsTruthy, Bool.or_eq_true, Bool.not_eq_true',
                  Bool.not_eq_false, not_or, beq_eq_false_iff_ne, ne_eq] at hc'
                have hs : s = "Present" ∨ s = "Absent" := by
                  have h2 := hc2
                  simp only [Option.getD_some, Bool.not_eq_true', Bool.or_eq_false_iff,
                    beq_eq_false_iff_ne, ne_eq] at h2
                  by_cases hp : s = "Present"
                  · exact Or.inl hp
                  · right
                    by_contra ha
                    exact h2 ⟨hp, ha⟩
                have hd : dateRegexTest d = true := by
                  simpa using hc3
                refine ⟨n, i, d, s, rfl, hc'.1.1.1, hc'.1.1.2, ?_⟩
                rcases hs with hsv | hsv <;> subst hsv <;>
                  simp [jsTruthy, hc'.1.1.1, hc'.1.1.2, hc'.1.2, hd]

/-- C5 amended witness: a concrete accepted request exhibits non-empty
inputs and the trimmed stored row. -/
theorem post_accepted_fields_witness :
    ∃ n i d s,
      (⟨some "Alice", some "E1", some "2024-03-01", some "Present"⟩ : PostBody) =
        ⟨some n, some i, some d, some s⟩ ∧ n ≠ "" ∧ i ≠ "" ∧
      (postAttendance ⟨[], 5, 7⟩
          ⟨some "Alice", some "E1", some "2024-03-01", some "Present"⟩).2.rows =
        (⟨[], 5, 7⟩ : Store).rows ++
          [{ id := (⟨[], 5, 7⟩ : Store).nextId, employeeName := jsTrim n,
             employeeID := jsTrim i, date := d, status := s,
             created_at := (⟨[], 5, 7⟩ : Store).clock }] :=
  post_accepted_fields ⟨[], 5, 7⟩
    ⟨some "Alice", some "E1", some "2024-03-01", some "Present"⟩ rfl

/-- When no row has the target id, the DELETE's filter keeps every row. -/
theorem filter_keep_of_no_match (rows : List Row) (k : Int)
    (h : ∀ r ∈ rows, (r.id : Int) ≠ k) :
    (rows.filter fun r => !((r.id : Int) == k)) = rows :=
  List.filter_eq_self.mpr fun r hr => by simp [h r hr]

/-- When some row has the target id, the DELETE's filter drops at least
one row. -/
theorem filter_length_lt_of_match {rows : List Row} {k : Int} (r : Row)
    (hr : r ∈ rows) (hk : (r.id : Int) = k) :
    (rows.filter fun x => !((x.id : Int) == k)).length < rows.length := by
  induction rows with
  | nil => cases hr
  | cons a t ih =>
    rcases List.mem_cons.mp hr with rfl | hrt
    · simp only [List.filter_cons, hk, beq_self_eq_true, Bool.not_true, List.length_cons]
      exact Nat.lt_succ_of_le (List.length_filter_le _ t)
    · by_cases ha : ((a.id : Int) == k) = true
      · simp only [List.filter_cons, ha, Bool.not_true, List.length_cons]
        exact Nat.lt_succ_of_le (List.length_filter_le _ t)
      · simp only [List.filter_cons, Bool.not_eq_true', Bool.not_eq_false] at *
        simp only [ha, List.length_cons]
        exact Nat.succ_lt_succ (ih hrt)

/-- With pairwise-distinct ids, the DELETE's filter drops exactly one row
when a row with the target id exists. -/
theorem filter_length_succ_of_nodup {rows : List Row} {k : Int} (r : Row)
    (hr : r ∈ rows) (hk : (r.id : Int) = k) (hnd : (rows.map Row.id).Nodup) :
    (rows.filter fun x => !((x.id : Int) == k)).length + 1 = rows.length := by
  induction rows with
  | nil => cases hr
  | cons a t ih =>
    have hnd' : (t.map Row.id).Nodup := (List.nodup_cons.mp hnd).2
    have hha : a.id ∉ t.map Row.id := (List.nodup_cons.mp hnd).1
    rcases List.mem_cons.mp hr with rfl | hrt
    · simp only [List.filter_cons, hk, beq_self_eq_true, Bool.not_true, List.length_cons]
      have : ∀ x ∈ t, (x.id : Int) ≠ k := by
        intro x hx hxk
        apply hha
        have : x.id = r.id := by
          have := hxk.trans hk.symm
          exact_mod_cast this
        rw [← this]
        exact List.mem_map_of_mem Row.id hx
      rw [filter_keep_of_no_match t k this]
      simp
    · have ha : (a.id : Int) ≠ k := by
        intro hak
        apply hha
        have : r.id = a.id := by
          have := hk.trans hak.symm
          exact_mod_cast this
        rw [← this]
        exact List.mem_map_of_mem Row.id hrt
      have hfc : (a :: t).filter (fun x => !((x.id : Int) == k)) =
          a :: t.filter (fun x => !((x.id : Int) == k)) := by
        simp [List.filter_cons, ha]
      rw [hfc]
      simp only [List.length_cons]
      have := ih hrt hnd'
      omega

/-- C6: the DELETE handler returns 400 and leaves the store untouched when
the id is missing (empty) or not numeric; when the parsed id matches no
row it returns 404 `Record not found` with the store unchanged; and when a
row matches it returns 200 having removed exactly the rows with that id —
exactly one row when ids are pairwise distinct. -/
theorem delete_behavior (st : Store) (id : String) :
    ((id = "" ∨ jsIsNaN id = true) →
      deleteAttendance st id = ((400, errBody "Valid ID is required"), st)) ∧
    (∀ k, id ≠ "" → jsIsNaN id = false → jsParseInt id = some k →
      ((∀ r ∈ st.rows, (r.id : Int) ≠ k) →
        deleteAttendance st id = ((404, errBody "Record not found"), st)) ∧
      ((∃ r ∈ st.rows, (r.id : Int) = k) →
        (deleteAttendance st id).1.1 = 200 ∧
        (deleteAttendance st id).2.rows =
          st.rows.filter (fun r => !((r.id : Int) == k)) ∧
        ((st.rows.map Row.id).Nodup →
          (deleteAttendance st id).2.rows.length + 1 = st.rows.length))) := by
  constructor
  · rintro (he | hnan)
    · subst he
      simp [deleteAttendance]
    · simp [deleteAttendance, hnan]
  · intro k he hnan hk
    have hguard : (id == "" || jsIsNaN id) = false := by
      simp [he, hnan]
    constructor
    · intro hnone
      have hkeep := filter_keep_of_no_match st.rows k hnone
      simp only [deleteAttendance, hguard, Bool.false_eq_true, if_false, hk]
      rw [hkeep]
      simp
    · rintro ⟨r, hr, hrk⟩
      have hlt := filter_length_lt_of_match r hr hrk
      have hne : ((st.rows.filter fun x => !((x.id : Int) == k)).length ==
          st.rows.length) = false := by
        simp only [beq_eq_false_iff_ne, ne_eq]
        omega
      refine ⟨?_, ?_, ?_⟩
      · simp [deleteAttendance, hguard, hk, hne]
      · simp [deleteAttendance, hguard, hk, hne]
      · intro hnd
        have := filter_length_succ_of_nodup r hr hrk hnd
        simp [deleteAttendance, hguard, hk, hne, this]

/-- C6 witness: with one stored row of id 1, deleting `"abc"` is a 400,
deleting `"2"` is a 404 leaving the row, and deleting `"1"` removes it
with a 200. -/
theorem delete_behavior_witness :
    deleteAttendance ⟨[⟨1, "A", "E1", "2024-03-01", "Present", 0⟩], 2, 1⟩ "abc" =
      ((400, errBody "Valid ID is required"),
       ⟨[⟨1, "A", "E1", "2024-03-01", "Present", 0⟩], 2, 1⟩) ∧
    deleteAttendance ⟨[⟨1, "A", "E1", "2024-03-01", "Present", 0⟩], 2, 1⟩ "2" =
      ((404, errBody "Record not found"),
       ⟨[⟨1, "A", "E1", "2024-03-01", "Present", 0⟩], 2, 1⟩) ∧
    (deleteAttendance ⟨[⟨1, "A", "E1", "2024-03-01", "Present", 0⟩], 2, 1⟩ "1").1.1 = 200 ∧
    (deleteAttendance ⟨[⟨1, "A", "E1", "2024-03-01", "Present", 0⟩], 2, 1⟩ "1").2.rows.length + 1 = 1 := by
  refine ⟨?_, ?_, ?_, ?_⟩
  · exact (delete_behavior ⟨[⟨1, "A", "E1", "2024-03-01", "Present", 0⟩], 2, 1⟩ "abc").1
      (Or.inr (by decide))
  · exact ((delete_behavior ⟨[⟨1, "A", "E1", "2024-03-01", "Present", 0⟩], 2, 1⟩ "2").2
      2 (by decide) (by decide) (by decide)).1 (by decide)
  · exact (((delete_behavior ⟨[⟨1, "A", "E1", "2024-03-01", "Present", 0⟩], 2, 1⟩ "1").2
      1 (by decide) (by decide) (by decide)).2 (by decide)).1
  · have h := (((delete_behavior ⟨[⟨1, "A", "E1", "2024-03-01", "Present", 0⟩], 2, 1⟩ "1").2
      1 (by decide) (by decide) (by decide)).2 (by decide)).2.2 (by decide)
    simpa using h

/-- C7: a successful GET of the listing is a 200 whose body is
`{success:true, data, count}`: `data` holds all stored rows (a
permutation of the table) sorted under date descending then `created_at`
descending, `count` is the length of `data`, and the empty table yields
`{success:true, data:[], count:0}`. -/
theorem get_attendance_listing (st : Store) :
    (getAttendance st).1 = 200 ∧
    (getAttendance st).2 =
      Json.obj [("success", Json.bool true),
                ("data", Json.arr ((listRows st.rows).map rowToJson)),
                ("count", Json.num ((listRows st.rows).length : Int))] ∧
    (listRows st.rows).Perm st.rows ∧
    List.Sorted listedBefore (listRows st.rows) ∧
    ((listRows st.rows).map rowToJson).length = (listRows st.rows).length ∧
    (listRows st.rows).length = st.rows.length ∧
    (st.rows = [] → getAttendance st =
      (200, Json.obj [("success", Json.bool true),
                      ("data", Json.arr []),
                      ("count", Json.num 0)])) := by
  refine ⟨rfl, rfl, ?_, ?_, ?_, ?_, ?_⟩
  · exact List.perm_insertionSort listedBefore st.rows
  · exact List.sorted_insertionSort listedBefore st.rows
  · exact List.length_map _ rowToJson
  · exact (List.perm_insertionSort listedBefore st.rows).length_eq
  · intro h
    rcases st with ⟨rows, nid, ck⟩
    simp only at h
    subst h
    rfl

/-- C8: the startup supervisor makes at most 3 bootstrap attempts, binds
the listener at most once and only after a successful attempt, sleeps a
fixed 5000 ms after each failed attempt except the last, and after the
third failure exits with the non-zero code 1 without ever binding the
listener; each possible outcome sequence yields exactly the listed
trace. -/
theorem startServer_behavior (outcome : Nat → Bool) :
    ((startServer outcome).countP isAttempt ≤ 3) ∧
    ((startServer outcome).countP isListen ≤ 1) ∧
    (StartEvent.listen ∈ startServer outcome → ∃ n, n < 3 ∧ outcome n = true) ∧
    (outcome 0 = true →
      startServer outcome = [StartEvent.attempt true, StartEvent.listen]) ∧
    (outcome 0 = false → outcome 1 = true →
      startServer outcome =
        [StartEvent.attempt false, StartEvent.sleep 5000,
         StartEvent.attempt true, StartEvent.listen]) ∧
    (outcome 0 = false → outcome 1 = false → outcome 2 = true →
      startServer outcome =
        [StartEvent.attempt false, StartEvent.sleep 5000,
         StartEvent.attempt false, StartEvent.sleep 5000,
         StartEvent.attempt true, StartEvent.listen]) ∧
    (outcome 0 = false → outcome 1 = false → outcome 2 = false →
      startServer outcome =
        [StartEvent.attempt false, StartEvent.sleep 5000,
         StartEvent.attempt false, StartEvent.sleep 5000,
         StartEvent.attempt false, StartEvent.exitProcess 1] ∧
      StartEvent.listen ∉ startServer outcome ∧ (1 : Nat) ≠ 0) := by
  cases h0 : outcome 0 <;> cases h1 : outcome 1 <;> cases h2 : outcome 2 <;>
    simp [startServer, startLoop, h0, h1, h2, isAttempt, isListen,
      List.countP_cons, List.countP_nil] <;>
    first
      | exact ⟨0, by omega, h0⟩
      | exact ⟨1, by omega, h1⟩
      | exact ⟨2, by omega, h2⟩

/-- C1 counterexample: the `GET /health` body carries no boolean `success`
field at all, and the pool-uninitialized 500 body is
`{error:'Database not connected'}` — without `success` or `details`. -/
theorem envelope_counterexample :
    hasBoolField (healthRoute "2024-01-01T00:00:00.000Z").2 "success" = false ∧
    hasBoolField (getAttendanceRoute false ⟨[], 1, 0⟩).2 "success" = false ∧
    (getAttendanceRoute false ⟨[], 1, 0⟩).2 =
      Json.obj [("error", Json.str "Database not connected")] :=
  ⟨rfl, rfl, rfl⟩

/-- C1 amended: the three attendance handlers (pool initialized), the 404
route handler and the global error handler always answer an object with a
boolean `success` field; but `GET /health`, `GET /api` and the
pool-uninitialized 500 responses carry no `success` field — the latter's
body is exactly `{error:'Database not connected'}`. -/
theorem envelope_amended :
    (∀ st body, hasBoolField (postAttendanceRoute true st body).1.2 "success" = true) ∧
    (∀ st id, hasBoolField (deleteAttendanceRoute true st id).1.2 "success" = true) ∧
    (∀ st, hasBoolField (getAttendanceRoute true st).2 "success" = true) ∧
    (∀ url, hasBoolField (notFoundRoute url).2 "success" = true) ∧
    (∀ m, hasBoolField (globalErrorRoute m).2 "success" = true) ∧
    (∀ ts, hasBoolField (healthRoute ts).2 "success" = false) ∧
    hasBoolField apiInfoRoute.2 "success" = false ∧
    (∀ st, (getAttendanceRoute false st).2 = poolUninitBody) ∧
    (∀ st body, (postAttendanceRoute false st body).1 = (500, poolUninitBody)) ∧
    (∀ st id, (deleteAttendanceRoute false st id).1 = (500, poolUninitBody)) ∧
    hasBoolField poolUninitBody "success" = false := by
  refine ⟨?_, ?_, ?_, ?_, ?_, ?_, rfl, ?_, ?_, ?_, rfl⟩
  · intro st body
    show hasBoolField (postAttendance st body).1.2 "success" = true
    unfold postAttendance
    split
    · rfl
    · dsimp only
      split
      · rfl
      · split
        · rfl
        · rfl
  · intro st id
    show hasBoolField (deleteAttendance st id).1.2 "success" = true
    unfold deleteAttendance
    split
    · rfl
    · split
      · rfl
      · dsimp only
        split
        · rfl
        · rfl
  · intro st
    rfl
  · intro url
    rfl
  · intro m
    rfl
  · intro ts
    rfl
  · intro st
    rfl
  · intro st body
    rfl
  · intro st id
    rfl

/-- C9 counterexample: a request whose Origin header is present but empty
is let through by the code (`!origin` is true for the empty string) even
though the empty string is not a member of the allow-list, so "allowed iff
no Origin header or Origin in the allow-list" fails. -/
theorem cors_counterexample :
    corsOriginAllowed none (some "") = true ∧
    (some "" ≠ (none : Option String)) ∧
    "" ∉ corsAllowedOrigins none ∧
    corsSpecAllowed none (some "") = false := by
  refine ⟨rfl, by simp, by decide, rfl⟩

/-- C9 amended: the CORS predicate allows a request iff the Origin header
is absent or the empty string, or its value is a member of the allow-list;
and the allow-list is exactly the three fixed origins plus the configured
FRONTEND_URL when that is set and non-empty. -/
theorem cors_policy (frontendUrl origin : Option String) :
    (corsOriginAllowed frontendUrl origin = true ↔
      (origin = none ∨ origin = some "" ∨
       ∃ o, origin = some o ∧ o ∈ corsAllowedOrigins frontendUrl)) ∧
    corsAllowedOrigins frontendUrl =
      fixedOrigins ++ (match frontendUrl with
                       | some u => if u = "" then [] else [u]
                       | none => []) := by
  constructor
  · cases origin with
    | none => simp [corsOriginAllowed, jsTruthy]
    | some o =>
      by_cases ho : o = ""
      · subst ho
        simp [corsOriginAllowed, jsTruthy]
      · simp [corsOriginAllowed, jsTruthy, ho, List.elem_iff]
  · cases frontendUrl with
    | none => rfl
    | some u =>
      by_cases hu : u = ""
      · subst hu
        rfl
      · simp [corsAllowedOrigins, jsTruthy, hu, fixedOrigins, List.filterMap_append]

/-- C9 amended witness: with FRONTEND_URL unset, the fixed origin
`http://localhost:3000` is allowed and the allow-list is the three fixed
origins. -/
theorem cors_policy_witness :
    (corsOriginAllowed none (some "http://localhost:3000") = true ↔
      ((some "http://localhost:3000" : Option String) = none ∨
       (some "http://localhost:3000" : Option String) = some "" ∨
       ∃ o, (some "http://localhost:3000" : Option String) = some o ∧
         o ∈ corsAllowedOrigins none)) ∧
    corsAllowedOrigins none = fixedOrigins ++ [] :=
  cors_policy none (some "http://localhost:3000")

/-- C10: the DELETE id check accepts every non-empty id string whose JS
number coercion is not NaN (never answering 400 for those), and the
non-integer numeric id `"12.5"` in particular is not rejected: `parseInt`
truncates it to 12 and the delete removes the row with id 12. -/
theorem delete_id_coercion :
    (∀ st id, id ≠ "" → jsIsNaN id = false →
      (deleteAttendanceRoute true st id).1.1 ≠ 400) ∧
    jsIsNaN "12.5" = false ∧
    jsParseInt "12.5" = some 12 ∧
    (deleteAttendance ⟨[⟨12, "A", "E1", "2024-01-01", "Present", 0⟩], 13, 1⟩ "12.5").1.1 = 200 ∧
    (deleteAttendance ⟨[⟨12, "A", "E1", "2024-01-01", "Present", 0⟩], 13, 1⟩ "12.5").2.rows = [] := by
  refine ⟨?_, rfl, rfl, rfl, rfl⟩
  intro st id he hnan
  show (deleteAttendance st id).1.1 ≠ 400
  unfold deleteAttendance
  have hguard : (id == "" || jsIsNaN id) = false := by
    simp [he, hnan]
  rw [hguard]
  simp only [Bool.false_eq_true, if_false]
  split
  · simp
  · split
    · simp
    · simp

/-- C7 witness: the empty table lists as
`{success:true, data:[], count:0}`. -/
theorem get_attendance_listing_witness :
    getAttendance ⟨[], 1, 0⟩ =
      (200, Json.obj [("success", Json.bool true),
                      ("data", Json.arr []),
                      ("count", Json.num 0)]) :=
  (get_attendance_listing ⟨[], 1, 0⟩).2.2.2.2.2.2 rfl

/-- C8 witness: with every bootstrap failing, the supervisor's trace is
attempt, sleep 5000, attempt, sleep 5000, attempt, exit 1 — three
attempts, no listen, non-zero exit. -/
theorem startServer_behavior_witness :
    startServer (fun _ => false) =
      [StartEvent.attempt false, StartEvent.sleep 5000,
       StartEvent.attempt false, StartEvent.sleep 5000,
       StartEvent.attempt false, StartEvent.exitProcess 1] ∧
    StartEvent.listen ∉ startServer (fun _ => false) ∧ (1 : Nat) ≠ 0 :=
  (startServer_behavior (fun _ => false)).2.2.2.2.2.2 rfl rfl rfl

/-- C10 witness: a concrete numeric id is not answered with 400. -/
theorem delete_id_coercion_witness :
    (deleteAttendanceRoute true ⟨[], 1, 0⟩ "7").1.1 ≠ 400 :=
  delete_id_coercion.1 ⟨[], 1, 0⟩ "7" (by decide) (by decide)

end AttendanceTracker
